import Mathlib

/-!
Verification of the asynchronous video-processing pipeline
(`tasks.py` / `main.py`) against its natural-language specification.

The pipeline is shallowly embedded: Python floats become exact rationals
(`ℚ`), the external tools (ffprobe/ffmpeg), the JSON parser and the
record store become explicit inputs of the translated functions, and each
MongoDB `update_one` call becomes one element of a list of writes so that
the write-granularity claims of the spec can be stated.
-/

namespace Clipo

/-! ## Python numeric primitives

Python's `//`, `%` and `int()` on rationals. `ratFloor` is the
computable floor `q.num / q.den` (equal to `⌊q⌋` by `Rat.floor_def`);
`int()` truncates toward zero. -/
def ratFloor (q : ℚ) : ℤ := q.num / (q.den : ℤ)

/-- Python floor division `a // b`. -/
def pyFloordiv (a b : ℚ) : ℚ := ((ratFloor (a / b) : ℤ) : ℚ)

/-- Python modulo `a % b` (equal to `a - b * (a // b)`). -/
def pyMod (a b : ℚ) : ℚ := a - b * ((ratFloor (a / b) : ℤ) : ℚ)

/-- Python `int()`: truncation toward zero. -/
def pyInt (q : ℚ) : ℤ := if 0 ≤ q then ratFloor q else -ratFloor (-q)

/-- Python `f"{n:02d}"`: decimal rendering zero-padded to width 2. -/
def pad2 (n : ℤ) : String :=
  let s := toString n
  if s.length < 2 then "0" ++ s else s

/-! ## The duration display string (tasks.py lines 66-71) -/
/-- The `HH:MM:SS` display string computed at tasks.py lines 66-71:
`hours = int(d // 3600)`, `minutes = int((d % 3600) // 60)`,
`seconds = int(d % 60)`, rendered as `f"{h:02d}:{m:02d}:{s:02d}"`. -/
def durationStr (duration_seconds : ℚ) : String :=
  let hours := pyInt (pyFloordiv duration_seconds 3600)
  let minutes := pyInt (pyFloordiv (pyMod duration_seconds 3600) 60)
  let seconds := pyInt (pyMod duration_seconds 60)
  pad2 hours ++ ":" ++ pad2 minutes ++ ":" ++ pad2 seconds

/-- The display string as the spec words it: truncate the duration to a
whole number of seconds, then split by integer division by 3600 / 60 / 60
(truncation, not rounding). Stated from the spec's words for comparison
with the source-derived `durationStr`. -/
def specDurationDisplay (duration_seconds : ℚ) : String :=
  let t : ℕ := (⌊duration_seconds⌋).toNat
  pad2 ((t / 3600 : ℕ) : ℤ) ++ ":" ++ pad2 (((t % 3600) / 60 : ℕ) : ℤ)
    ++ ":" ++ pad2 ((t % 60 : ℕ) : ℤ)

/-! ## External processes (`subprocess.run(..., check=True)`)

The external tool's actual behaviour is an input: a `CompletedProcess`
(exit code, stdout, stderr). `subprocess.run` with `check=True` raises
`CalledProcessError` exactly when the exit code is non-zero; the text of
that exception (`str(e)`, produced by the Python library) is modelled by
`calledProcessErrorMsg`. -/
structure CompletedProcess where
  returncode : ℤ
  stdout : String
  stderr : String
deriving DecidableEq

/-- Text of `str(subprocess.CalledProcessError(...))` (library-produced). -/
def calledProcessErrorMsg (returncode : ℤ) : String :=
  "Command returned non-zero exit status " ++ toString returncode ++ "."

/-- Behaviour of `subprocess.run(cmd, capture_output=True, text=True, check=True)`:
returns the completed process on exit code 0, raises otherwise. -/
def subprocessRun (raw : CompletedProcess) : Except String CompletedProcess :=
  if raw.returncode = 0 then .ok raw
  else .error (calledProcessErrorMsg raw.returncode)

/-! ## `get_video_duration` (tasks.py lines 43-80) -/
/-- The ffprobe command list built at tasks.py lines 48-54. -/
def ffprobeCmd (video_path : String) : List String :=
  ["ffprobe", "-v", "quiet", "-print_format", "json", "-show_format", video_path]

/-- Translation of `get_video_duration`. The ffprobe process outcome and
the JSON step (`json.loads` + `metadata['format']['duration']` + `float`,
a Python-library behaviour) are inputs. A `CalledProcessError` is caught
and re-raised wrapped as `"Failed to extract duration: " ++ e`
(lines 75-77); every other exception is re-raised verbatim (lines 78-80). -/
def get_video_duration (video_path : String) (ffprobeRaw : CompletedProcess)
    (parse : String → Except String ℚ) : Except String (String × ℚ) :=
  let _cmd := ffprobeCmd video_path
  match subprocessRun ffprobeRaw with
  | .error e => .error ("Failed to extract duration: " ++ e)
  | .ok result =>
    if result.returncode ≠ 0 then
      .error ("FFprobe failed: " ++ result.stderr)
    else
      match parse result.stdout with
      | .error e => .error e
      | .ok duration_seconds => .ok (durationStr duration_seconds, duration_seconds)

/-- `get_video_duration` with the `returncode != 0` test (tasks.py lines
58-59) removed — used to state that that branch is unreachable (C10). -/
def get_video_duration_unchecked (video_path : String) (ffprobeRaw : CompletedProcess)
    (parse : String → Except String ℚ) : Except String (String × ℚ) :=
  let _cmd := ffprobeCmd video_path
  match subprocessRun ffprobeRaw with
  | .error e => .error ("Failed to extract duration: " ++ e)
  | .ok result =>
    match parse result.stdout with
    | .error e => .error e
    | .ok duration_seconds => .ok (durationStr duration_seconds, duration_seconds)

/-! ## Path helpers (`os.path`) -/
/-- Stem of `os.path.splitext` for names without a directory separator:
split at the last dot, unless every character before it is a dot
(Python does not treat leading dots as starting an extension). -/
def splitextStem (s : String) : String :=
  let cs := s.toList
  match ((cs.enum.filter (fun p => p.2 == '.')).map Prod.fst).getLast? with
  | none => s
  | some i => if (cs.take i).all (fun c => c == '.') then s else String.mk (cs.take i)

/-- `os.path.join` for the cases arising here. -/
def ospathJoin (a b : String) : String :=
  if b.startsWith "/" then b
  else if a = "" ∨ a.endsWith "/" then a ++ b
  else a ++ "/" ++ b

/-- Default of `THUMBNAIL_DIR` (tasks.py line 16). -/
def THUMBNAIL_DIR : String := "./thumbnails"

/-! ## `generate_thumbnail` (tasks.py lines 82-114) -/
/-- The ffmpeg invocation built at tasks.py lines 90-99: input path, seek
timestamp (`-ss`), `-vframes 1`, `-vf scale=320:240`, `-q:v 2`, `-y`,
output path. The seek timestamp is kept as an exact rational. -/
structure FfmpegCall where
  input : String
  ss : ℚ
  vframes : ℕ
  vf : String
  qv : ℕ
  overwrite : Bool
  output : String
deriving DecidableEq

/-- Translation of `generate_thumbnail`: computes the 10% timestamp
(`duration_seconds * 0.1`, line 88 — the literal `0.1` is modelled as the
exact `1/10`), builds the ffmpeg invocation, and returns it together with
the outcome (`True` on success; `CalledProcessError` wrapped as
`"Failed to generate thumbnail: " ++ e`, other exceptions verbatim). -/
def generate_thumbnail (video_path output_path : String) (duration_seconds : ℚ)
    (ffmpegRaw : CompletedProcess) : FfmpegCall × Except String Bool :=
  let thumbnail_time := duration_seconds * (1 / 10)
  let cmd : FfmpegCall :=
    { input := video_path, ss := thumbnail_time, vframes := 1,
      vf := "scale=320:240", qv := 2, overwrite := true, output := output_path }
  match subprocessRun ffmpegRaw with
  | .error e => (cmd, .error ("Failed to generate thumbnail: " ++ e))
  | .ok result =>
    if result.returncode ≠ 0 then (cmd, .error ("FFmpeg failed: " ++ result.stderr))
    else (cmd, .ok true)

/-! ## Record-store writes

Each MongoDB `update_one(filter, {"$set": fields})` call is one `Write`:
the list of field/value pairs of its `$set` document. -/
/-- The record fields the task writes (tasks.py lines 125-175). -/
inductive FieldName
  | status
  | duration
  | thumbnail_filename
  | processed_time
  | error_message
deriving DecidableEq

inductive Value
  | vStr : String → Value
  | vRat : ℚ → Value
deriving DecidableEq

/-- Returns `true` exactly for a numeric (float-valued) field value. -/
def Value.isNumeric : Value → Bool
  | .vRat _ => true
  | .vStr _ => false

abbrev Write := List (FieldName × Value)

/-- The `$set` document of the failure-path update (tasks.py lines 168-175). -/
def failWrite (error_message now : String) : Write :=
  [(.status, .vStr "failed"), (.error_message, .vStr error_message),
   (.processed_time, .vStr now)]

/-- The `$set` document of the success update (tasks.py lines 143-153). -/
def doneWrite (duration_str thumbnail_filename now : String) : Write :=
  [(.status, .vStr "done"), (.duration, .vStr duration_str),
   (.thumbnail_filename, .vStr thumbnail_filename), (.processed_time, .vStr now)]

/-- The `$set` document of the initial status update (tasks.py lines 125-128). -/
def processingWrite : Write := [(.status, Value.vStr "processing")]

/-- Result object of `update_one`: the task never inspects it. -/
structure UpdateResult where
  matchedCount : ℕ
deriving DecidableEq

/-- `update_one` on the record's key matches one document when the record
exists and zero when it is missing; it raises no error either way. -/
def updateOneResult (recordExists : Bool) : UpdateResult :=
  { matchedCount := if recordExists then 1 else 0 }

/-! ## `process_video` (tasks.py lines 116-178) -/
/-- The external world one task attempt runs against: whether the record
is present in the store, the ffprobe and ffmpeg process behaviours, the
JSON-parsing step, and `datetime.utcnow().isoformat()`. -/
structure Env where
  recordExists : Bool
  ffprobeRaw : CompletedProcess
  parseDuration : String → Except String ℚ
  ffmpegRaw : CompletedProcess
  now : String

/-- The dict returned on success (tasks.py lines 157-162). -/
structure TaskResult where
  video_id : String
  status : String
  duration : String
  thumbnail_filename : String
deriving DecidableEq

/-- How one attempt ends: the success return, or the re-raised
`self.retry(exc=e, countdown=60, max_retries=3)` (tasks.py line 178). -/
inductive Outcome
  | success (result : TaskResult)
  | retryRaise (exc : String) (countdown : ℕ) (maxRetries : ℕ)
deriving DecidableEq

/-- Observable behaviour of one `process_video` attempt: the record-store
writes it performs (in order), whether ffprobe was invoked, the ffmpeg
invocation if one was made, and how the attempt ended. -/
structure AttemptLog where
  writes : List Write
  ffprobeCalled : Bool
  ffmpegCall : Option FfmpegCall
  outcome : Outcome

/-- Translation of the `process_video` task body. The result of the
initial `update_one` is bound and ignored, exactly as in the source:
a missing record does not stop the pipeline. -/
def process_video (video_id video_path stored_filename : String) (env : Env) : AttemptLog :=
  let _updateResult := updateOneResult env.recordExists
  match get_video_duration video_path env.ffprobeRaw env.parseDuration with
  | .error e =>
    { writes := [processingWrite, failWrite e env.now],
      ffprobeCalled := true, ffmpegCall := none,
      outcome := .retryRaise e 60 3 }
  | .ok (duration_str, duration_seconds) =>
    let thumbnail_filename := "thumb_" ++ splitextStem stored_filename ++ ".jpg"
    let thumbnail_path := ospathJoin THUMBNAIL_DIR thumbnail_filename
    match generate_thumbnail video_path thumbnail_path duration_seconds env.ffmpegRaw with
    | (call, .error e) =>
      { writes := [processingWrite, failWrite e env.now],
        ffprobeCalled := true, ffmpegCall := some call,
        outcome := .retryRaise e 60 3 }
    | (call, .ok _) =>
      { writes := [processingWrite,
                   doneWrite duration_str thumbnail_filename env.now],
        ffprobeCalled := true, ffmpegCall := some call,
        outcome := .success ⟨video_id, "done", duration_str, thumbnail_filename⟩ }

/-! ## Record state

The record document, restricted to the fields this system reads or
writes; applying a `Write` sets each listed field. -/
structure Rec where
  filename : Option String := none
  upload_time : Option String := none
  status : Option String := none
  duration : Option String := none
  thumbnail_filename : Option String := none
  processed_time : Option String := none
  error_message : Option String := none
deriving DecidableEq

def setField (r : Rec) (kv : FieldName × Value) : Rec :=
  match kv with
  | (.status, .vStr s) => { r with status := some s }
  | (.duration, .vStr s) => { r with duration := some s }
  | (.thumbnail_filename, .vStr s) => { r with thumbnail_filename := some s }
  | (.processed_time, .vStr s) => { r with processed_time := some s }
  | (.error_message, .vStr s) => { r with error_message := some s }
  | (_, .vRat _) => r

def applyWrite (r : Rec) (w : Write) : Rec := w.foldl setField r

def applyWrites (r : Rec) (ws : List Write) : Rec := ws.foldl applyWrite r

def applyAttempt (r : Rec) (log : AttemptLog) : Rec := applyWrites r log.writes

/-! ## Status and metadata endpoints (main.py lines 178-257)

The record store is a key-value map from id strings to records; `find_one`
is a lookup. Neither handler performs any write, so each is translated as
returning the store unchanged together with its HTTP-level result. -/
/-- Validity test `bson.ObjectId.is_valid` on a string: 24 hexadecimal characters. -/
def objectIdIsValid (s : String) : Bool :=
  s.length == 24 && s.toList.all fun c =>
    c.isDigit || ('a' ≤ c && c ≤ 'f') || ('A' ≤ c && c ≤ 'F')

abbrev Db := List (String × Rec)

inductive ApiError
  | badRequest (detail : String)
  | notFound (detail : String)
  | internalError (detail : String)
deriving DecidableEq

/-- Response model `VideoStatus` (main.py lines 79-81). -/
structure VideoStatusOut where
  id : String
  status : String
deriving DecidableEq

/-- Response model `VideoMetadata` (main.py lines 83-89). -/
structure VideoMetadataOut where
  id : String
  filename : String
  upload_time : String
  status : String
  duration : Option String
  thumbnail_url : Option String
deriving DecidableEq

/-- Translation of `GET /video-status/{video_id}` (main.py lines 178-212):
validate the id, look the record up, and return its stored status. The
store is returned unchanged: the handler only reads. -/
def get_video_status (db : Db) (video_id : String) :
    Db × Except ApiError VideoStatusOut :=
  if !objectIdIsValid video_id then
    (db, .error (.badRequest "Invalid video ID format"))
  else
    match db.lookup video_id with
    | none => (db, .error (.notFound "Video not found"))
    | some doc =>
      match doc.status with
      | some s => (db, .ok ⟨video_id, s⟩)
      | none => (db, .error (.internalError "Failed to get video status: 'status'"))

/-- Translation of `GET /video-metadata/{video_id}` (main.py lines
214-257). The thumbnail URL is derived from `thumbnail_filename` under
Python truthiness (`if video_doc.get("thumbnail_filename"):`): the field
must be present *and* non-empty. The store is returned unchanged. -/
def get_video_metadata (db : Db) (video_id : String) :
    Db × Except ApiError VideoMetadataOut :=
  if !objectIdIsValid video_id then
    (db, .error (.badRequest "Invalid video ID format"))
  else
    match db.lookup video_id with
    | none => (db, .error (.notFound "Video not found"))
    | some doc =>
      let thumbnail_url : Option String :=
        match doc.thumbnail_filename with
        | some t => if t = "" then none else some ("/thumbnails/" ++ t)
        | none => none
      match doc.filename with
      | none => (db, .error (.internalError "Failed to get video metadata: 'filename'"))
      | some fn =>
        match doc.upload_time with
        | none => (db, .error (.internalError "Failed to get video metadata: 'upload_time'"))
        | some ut =>
          match doc.status with
          | none => (db, .error (.internalError "Failed to get video metadata: 'status'"))
          | some st =>
            (db, .ok ⟨video_id, fn, ut, st, doc.duration, thumbnail_url⟩)

/-! Concrete environments used by individual claims. -/
/-- A fully successful run against a 100-second `clip.mp4` (C3). -/
def envC3 : Env :=
  { recordExists := true, ffprobeRaw := ⟨0, "j", ""⟩,
    parseDuration := fun _ => .ok 100, ffmpegRaw := ⟨0, "", ""⟩, now := "t" }

/-- A fully successful run whose record is missing from the store (C6). -/
def envC6 : Env :=
  { recordExists := false, ffprobeRaw := ⟨0, "j", ""⟩,
    parseDuration := fun _ => .ok 100, ffmpegRaw := ⟨0, "", ""⟩, now := "t" }

/-- A run whose ffprobe invocation exits with code 1 (C7). -/
def envC7 : Env :=
  { recordExists := true, ffprobeRaw := ⟨1, "", "boom"⟩,
    parseDuration := fun _ => .error "x", ffmpegRaw := ⟨0, "", ""⟩, now := "t" }

/-- An environment whose ffprobe always exits with code 1 (C2). -/
def envC2 : Env :=
  { recordExists := true, ffprobeRaw := ⟨1, "", "boom"⟩,
    parseDuration := fun _ => .error "x", ffmpegRaw := ⟨0, "", ""⟩, now := "t" }

/-- Attempt-indexed environments for the fail-then-succeed scenario (C4):
the thumbnail step fails on attempt 0 and succeeds on attempt 1. -/
def envsC4 : ℕ → Env := fun n =>
  if n = 0 then
    { recordExists := true, ffprobeRaw := ⟨0, "j", ""⟩,
      parseDuration := fun _ => .ok 120, ffmpegRaw := ⟨1, "", "disk"⟩, now := "t0" }
  else
    { recordExists := true, ffprobeRaw := ⟨0, "j", ""⟩,
      parseDuration := fun _ => .ok 120, ffmpegRaw := ⟨0, "", ""⟩, now := "t1" }

/-- A store with one record whose `thumbnail_filename` is present but
empty (C9). -/
def dbC9 : Db :=
  [("0123456789abcdef01234567",
    { filename := some "a.mp4", upload_time := some "T", status := some "done",
      duration := some "00:00:01", thumbnail_filename := some "" })]

/-! ## The Job Queue (spec §4.1 / §4.2 / §4.5)

Modelled from the spec: the enqueue / redeliver / ack orchestration is
delegated by the source to its task-queue library (Celery) and has no
code under `src/`; the model below follows the spec's contract — on
success the job is acked; on failure it is redelivered after the
`countdown` the task requested, as long as the total number of attempts
stays below the configured maximum (default 3 total attempts), after
which the job is permanently acked. -/
inductive JobEnd
  | ackedDone
  | ackedDead
deriving DecidableEq

/-- One job's life: the record state after each attempt, the backoff
delays between consecutive attempts, and the final disposition. -/
structure JobRun where
  attempts : List Rec
  delays : List ℕ
  fin : JobEnd
deriving DecidableEq

/-- Modelled from the spec: the redelivery loop, fuelled by the remaining
number of deliveries. `idx` is the zero-based index of the current
attempt; redelivery happens while `idx + 1 < cap`. -/
def runQueue (video_id video_path stored_filename : String) (envs : ℕ → Env)
    (cap : ℕ) : Rec → ℕ → ℕ → JobRun
  | _, _, 0 => { attempts := [], delays := [], fin := .ackedDead }
  | r, idx, fuel + 1 =>
    let log := process_video video_id video_path stored_filename (envs idx)
    let r' := applyAttempt r log
    match log.outcome with
    | .success _ => { attempts := [r'], delays := [], fin := .ackedDone }
    | .retryRaise _ countdown _ =>
      if idx + 1 < cap then
        let rest := runQueue video_id video_path stored_filename envs cap r' (idx + 1) fuel
        { attempts := r' :: rest.attempts, delays := countdown :: rest.delays,
          fin := rest.fin }
      else { attempts := [r'], delays := [], fin := .ackedDead }

/-- The configured maximum number of total attempts (spec §4.1 default,
matching the `max_retries=3` the task passes at tasks.py line 178). -/
def maxAttemptsDefault : ℕ := 3

/-- A job's full life under the default retry policy. -/
def runJob (video_id video_path stored_filename : String) (envs : ℕ → Env)
    (r0 : Rec) : JobRun :=
  runQueue video_id video_path stored_filename envs maxAttemptsDefault r0 0
    maxAttemptsDefault

theorem ratFloor_eq_floor (q : ℚ) : ratFloor q = ⌊q⌋ := Rat.floor_def.symm

/-! Floor arithmetic helper lemmas. -/
theorem floor_div_natCast (a : ℚ) (n : ℕ) (hn : 0 < n) :
    ⌊a / (n : ℚ)⌋ = ⌊a⌋ / (n : ℤ) := by
  have hn' : (0 : ℤ) < (n : ℤ) := by exact_mod_cast hn
  have hnq : (0 : ℚ) < (n : ℚ) := by exact_mod_cast hn
  apply le_antisymm
  · rw [Int.le_ediv_iff_mul_le hn', Int.le_floor]
    push_cast
    calc (⌊a / (n : ℚ)⌋ : ℚ) * (n : ℚ)
        ≤ (a / (n : ℚ)) * (n : ℚ) :=
          mul_le_mul_of_nonneg_right (Int.floor_le _) hnq.le
      _ = a := div_mul_cancel₀ a hnq.ne'
  · rw [Int.le_floor, le_div_iff₀ hnq]
    calc ((⌊a⌋ / (n : ℤ) : ℤ) : ℚ) * (n : ℚ)
        = ((⌊a⌋ / (n : ℤ) * (n : ℤ) : ℤ) : ℚ) := by push_cast; ring
      _ ≤ ((⌊a⌋ : ℤ) : ℚ) := by exact_mod_cast Int.ediv_mul_le ⌊a⌋ hn'.ne'
      _ ≤ a := Int.floor_le a

theorem pyMod_floor (a : ℚ) (n : ℕ) (hn : 0 < n) :
    ⌊pyMod a (n : ℚ)⌋ = ⌊a⌋ % (n : ℤ) := by
  have h1 : ⌊a / (n : ℚ)⌋ = ⌊a⌋ / (n : ℤ) := floor_div_natCast a n hn
  rw [pyMod, ratFloor_eq_floor, h1]
  have h2 : (n : ℚ) * ((⌊a⌋ / (n : ℤ) : ℤ) : ℚ)
      = (((n : ℤ) * (⌊a⌋ / (n : ℤ)) : ℤ) : ℚ) := by push_cast; ring
  rw [h2, Int.floor_sub_int, Int.emod_def]

theorem pyMod_nonneg (a : ℚ) (n : ℕ) (_ha : 0 ≤ a) (hn : 0 < n) :
    0 ≤ pyMod a (n : ℚ) := by
  have hnq : (0 : ℚ) < (n : ℚ) := by exact_mod_cast hn
  rw [pyMod, ratFloor_eq_floor, sub_nonneg]
  calc (n : ℚ) * (⌊a / (n : ℚ)⌋ : ℚ)
      ≤ (n : ℚ) * (a / (n : ℚ)) :=
        mul_le_mul_of_nonneg_left (Int.floor_le _) hnq.le
    _ = (a / (n : ℚ)) * (n : ℚ) := mul_comm _ _
    _ = a := div_mul_cancel₀ a hnq.ne'

theorem pyInt_of_nonneg (q : ℚ) (h : 0 ≤ q) : pyInt q = ⌊q⌋ := by
  rw [pyInt, if_pos h, ratFloor_eq_floor]

/-- The three rendered components of `durationStr`, for a non-negative
duration, in terms of `⌊d⌋`. -/
theorem durationStr_eq_of_nonneg (d : ℚ) (hd : 0 ≤ d) :
    durationStr d =
      pad2 (⌊d⌋ / 3600) ++ ":" ++ pad2 (⌊d⌋ % 3600 / 60) ++ ":" ++ pad2 (⌊d⌋ % 60) := by
  have hdN : 0 ≤ ⌊d⌋ := Int.floor_nonneg.mpr hd
  have hf3600 : ⌊d / (3600 : ℚ)⌋ = ⌊d⌋ / 3600 := by
    have h := floor_div_natCast d 3600 (by norm_num)
    norm_num at h
    exact h
  have hm3600 : ⌊pyMod d (3600 : ℚ)⌋ = ⌊d⌋ % 3600 := by
    have h := pyMod_floor d 3600 (by norm_num)
    norm_num at h
    exact h
  have hmn3600 : 0 ≤ pyMod d (3600 : ℚ) := by
    have h := pyMod_nonneg d 3600 hd (by norm_num)
    norm_num at h
    exact h
  have hf60 : ⌊pyMod d (3600 : ℚ) / (60 : ℚ)⌋ = ⌊pyMod d (3600 : ℚ)⌋ / 60 := by
    have h := floor_div_natCast (pyMod d (3600 : ℚ)) 60 (by norm_num)
    norm_num at h
    exact h
  have hm60 : ⌊pyMod d (60 : ℚ)⌋ = ⌊d⌋ % 60 := by
    have h := pyMod_floor d 60 (by norm_num)
    norm_num at h
    exact h
  have hmn60 : 0 ≤ pyMod d (60 : ℚ) := by
    have h := pyMod_nonneg d 60 hd (by norm_num)
    norm_num at h
    exact h
  have hh : pyInt (pyFloordiv d 3600) = ⌊d⌋ / 3600 := by
    have h1 : pyFloordiv d 3600 = ((⌊d⌋ / 3600 : ℤ) : ℚ) := by
      simp only [pyFloordiv, ratFloor_eq_floor]
      exact congrArg (fun z : ℤ => (z : ℚ)) hf3600
    have h2 : (0 : ℚ) ≤ ((⌊d⌋ / 3600 : ℤ) : ℚ) := by
      exact_mod_cast Int.ediv_nonneg hdN (by norm_num)
    rw [h1, pyInt_of_nonneg _ h2, Int.floor_intCast]
  have hm : pyInt (pyFloordiv (pyMod d 3600) 60) = ⌊d⌋ % 3600 / 60 := by
    have h1 : pyFloordiv (pyMod d 3600) 60 = ((⌊d⌋ % 3600 / 60 : ℤ) : ℚ) := by
      simp only [pyFloordiv, ratFloor_eq_floor]
      exact congrArg (fun z : ℤ => (z : ℚ)) (by rw [hf60, hm3600])
    have h2 : (0 : ℚ) ≤ ((⌊d⌋ % 3600 / 60 : ℤ) : ℚ) := by
      exact_mod_cast Int.ediv_nonneg (Int.emod_nonneg _ (by norm_num)) (by norm_num)
    rw [h1, pyInt_of_nonneg _ h2, Int.floor_intCast]
  have hs : pyInt (pyMod d 60) = ⌊d⌋ % 60 := by
    rw [pyInt_of_nonneg _ hmn60, hm60]
  simp only [durationStr]
  rw [hh, hm, hs]

/-- C1: for every non-negative duration, the display string produced by the
source's `HH:MM:SS` conversion agrees with the spec's description (integer
division by 3600/60/60 on the truncated total seconds — truncation, not
rounding); and for `duration_seconds = 3725.9` it is exactly `"01:02:05"`. -/
theorem duration_display_truncation :
    (∀ d : ℚ, 0 ≤ d → durationStr d = specDurationDisplay d) ∧
    durationStr (37259 / 10 : ℚ) = "01:02:05" := by
  constructor
  · intro d hd
    have hdN : 0 ≤ ⌊d⌋ := Int.floor_nonneg.mpr hd
    rw [durationStr_eq_of_nonneg d hd]
    simp only [specDurationDisplay]
    have ht : ((⌊d⌋.toNat : ℤ)) = ⌊d⌋ := Int.toNat_of_nonneg hdN
    have e1 : ((⌊d⌋.toNat / 3600 : ℕ) : ℤ) = ⌊d⌋ / 3600 := by omega
    have e2 : ((⌊d⌋.toNat % 3600 / 60 : ℕ) : ℤ) = ⌊d⌋ % 3600 / 60 := by omega
    have e3 : ((⌊d⌋.toNat % 60 : ℕ) : ℤ) = ⌊d⌋ % 60 := by omega
    rw [e1, e2, e3]
  · have h0 : (0 : ℚ) ≤ 37259 / 10 := by norm_num
    rw [durationStr_eq_of_nonneg _ h0]
    have hf : ⌊(37259 / 10 : ℚ)⌋ = 3725 := by
      rw [show (37259 / 10 : ℚ) = ((37259 : ℤ) : ℚ) / ((10 : ℕ) : ℚ) by norm_num,
        Rat.floor_intCast_div_natCast]
      decide
    rw [hf]
    decide

/-- Witness for C1: concrete non-negative instance of the first conjunct. -/
theorem duration_display_truncation_witness :
    durationStr 2 = specDurationDisplay 2 :=
  duration_display_truncation.1 2 (by decide)

theorem applyWrites_fail (r : Rec) (e now : String) :
    applyWrites r [processingWrite, failWrite e now] =
      { r with status := some "failed", error_message := some e,
               processed_time := some now } := rfl

theorem applyWrites_done (r : Rec) (ds tf now : String) :
    applyWrites r [processingWrite, doneWrite ds tf now] =
      { r with status := some "done", duration := some ds,
               thumbnail_filename := some tf, processed_time := some now } := rfl

/-! ## C10: the returncode branch after `check=True` is dead code -/
/-- C10: the `result.returncode != 0` branch after the checked subprocess
invocation is unreachable — `get_video_duration` is extensionally equal to
the same translation with the branch removed, and whenever
`subprocess.run(..., check=True)` returns, the exit code is 0. -/
theorem returncode_branch_unreachable :
    (∀ video_path ffprobeRaw parse,
        get_video_duration video_path ffprobeRaw parse =
          get_video_duration_unchecked video_path ffprobeRaw parse) ∧
    (∀ raw r, subprocessRun raw = .ok r → r.returncode = 0) := by
  constructor
  · intro video_path raw parse
    simp only [get_video_duration, get_video_duration_unchecked, subprocessRun]
    by_cases h : raw.returncode = 0 <;> simp [h]
  · intro raw r h
    simp only [subprocessRun] at h
    by_cases hr : raw.returncode = 0
    · simp only [if_pos hr] at h
      cases h
      exact hr
    · simp [if_neg hr] at h

/-- Witness for C10: the zero-exit process is returned unchanged and its
recorded exit code is 0. -/
theorem returncode_branch_unreachable_witness :
    subprocessRun ⟨0, "", ""⟩ = .ok ⟨0, "", ""⟩ ∧
    (⟨0, "", ""⟩ : CompletedProcess).returncode = 0 :=
  ⟨rfl, returncode_branch_unreachable.2 ⟨0, "", ""⟩ ⟨0, "", ""⟩ rfl⟩

/-! ## C8: the record always ends `done` or `failed` -/
/-- C8: whatever the external world does, one completed `process_video`
attempt leaves the record's status at exactly `done` or `failed` — never
`pending` or `processing`. -/
theorem record_status_terminal (video_id video_path stored_filename : String)
    (env : Env) (r0 : Rec) :
    (applyAttempt r0 (process_video video_id video_path stored_filename env)).status
        = some "done" ∨
    (applyAttempt r0 (process_video video_id video_path stored_filename env)).status
        = some "failed" := by
  cases hgd : get_video_duration video_path env.ffprobeRaw env.parseDuration with
  | error e =>
    right
    simp only [process_video, hgd, applyAttempt]
    rw [applyWrites_fail]
  | ok p =>
    obtain ⟨dstr, d⟩ := p
    rcases hg : generate_thumbnail video_path
        (ospathJoin THUMBNAIL_DIR ("thumb_" ++ splitextStem stored_filename ++ ".jpg"))
        d env.ffmpegRaw with ⟨call, res⟩
    cases res with
    | error e =>
      right
      simp only [process_video, hgd, hg, applyAttempt]
      rw [applyWrites_fail]
    | ok b =>
      left
      simp only [process_video, hgd, hg, applyAttempt]
      rw [applyWrites_done]

/-! ## C5: the thumbnail invocation -/
theorem generate_thumbnail_call (video_path output_path : String) (d : ℚ)
    (raw : CompletedProcess) :
    (generate_thumbnail video_path output_path d raw).1 =
      { input := video_path, ss := d * (1 / 10), vframes := 1,
        vf := "scale=320:240", qv := 2, overwrite := true,
        output := output_path } := by
  simp only [generate_thumbnail]
  cases subprocessRun raw with
  | error e => rfl
  | ok r =>
    by_cases hr : r.returncode = 0 <;> simp [hr]

/-- C5: whenever duration inspection succeeds with value `d`, the pipeline
invokes ffmpeg exactly once, seeking to `d * 0.1`, with 320×240 output
geometry, one frame, writing to `THUMBNAIL_DIR/thumb_<stem>.jpg` derived
from the stored filename; and the timestamp for `d = 100` is `10`. -/
theorem thumbnail_invocation (video_id video_path stored_filename : String)
    (env : Env) (dstr : String) (d : ℚ)
    (h : get_video_duration video_path env.ffprobeRaw env.parseDuration
        = .ok (dstr, d)) :
    (process_video video_id video_path stored_filename env).ffmpegCall =
      some { input := video_path, ss := d * (1 / 10), vframes := 1,
             vf := "scale=320:240", qv := 2, overwrite := true,
             output := ospathJoin THUMBNAIL_DIR
               ("thumb_" ++ splitextStem stored_filename ++ ".jpg") } ∧
    (100 : ℚ) * (1 / 10) = 10 := by
  constructor
  · rcases hg : generate_thumbnail video_path
        (ospathJoin THUMBNAIL_DIR ("thumb_" ++ splitextStem stored_filename ++ ".jpg"))
        d env.ffmpegRaw with ⟨call, res⟩
    have hcall := generate_thumbnail_call video_path
      (ospathJoin THUMBNAIL_DIR ("thumb_" ++ splitextStem stored_filename ++ ".jpg"))
      d env.ffmpegRaw
    rw [hg] at hcall
    cases res with
    | error e => simp only [process_video, h, hg]; exact congrArg some hcall
    | ok b => simp only [process_video, h, hg]; exact congrArg some hcall
  · norm_num

/-- Witness for C5: a concrete successful inspection of a 100-second
video from a stored file `clip.mp4`. -/
theorem thumbnail_invocation_witness :
    (process_video "v" "p" "clip.mp4"
        { recordExists := true, ffprobeRaw := ⟨0, "j", ""⟩,
          parseDuration := fun _ => .ok 100, ffmpegRaw := ⟨0, "", ""⟩,
          now := "t" }).ffmpegCall =
      some { input := "p", ss := (100 : ℚ) * (1 / 10), vframes := 1,
             vf := "scale=320:240", qv := 2, overwrite := true,
             output := ospathJoin THUMBNAIL_DIR
               ("thumb_" ++ splitextStem "clip.mp4" ++ ".jpg") } ∧
    (100 : ℚ) * (1 / 10) = 10 :=
  thumbnail_invocation "v" "p" "clip.mp4"
    { recordExists := true, ffprobeRaw := ⟨0, "j", ""⟩,
      parseDuration := fun _ => .ok 100, ffmpegRaw := ⟨0, "", ""⟩, now := "t" }
    (durationStr 100) 100 rfl

/-! ## C3: the `done` transition -/
/-- C3 (amended): the transition to `done` happens only when both steps
succeed, and is then a single write setting exactly
`{status=done, duration_display, thumbnail_reference, processed_at=now}`;
on a failed attempt no write ever sets `status` to `done`. (The numeric
`duration_seconds` is not persisted — see the counterexample.) -/
theorem done_transition_single_write (video_id video_path stored_filename : String)
    (env : Env) :
    (∀ res, (process_video video_id video_path stored_filename env).outcome
          = .success res →
        (process_video video_id video_path stored_filename env).writes =
          [processingWrite, doneWrite res.duration res.thumbnail_filename env.now]) ∧
    (∀ e cd mr, (process_video video_id video_path stored_filename env).outcome
          = .retryRaise e cd mr →
        ∀ w ∈ (process_video video_id video_path stored_filename env).writes,
          (FieldName.status, Value.vStr "done") ∉ w) := by
  cases hgd : get_video_duration video_path env.ffprobeRaw env.parseDuration with
  | error e =>
    constructor
    · intro res hres
      simp [process_video, hgd] at hres
    · intro e' cd mr _ w hw
      simp only [process_video, hgd, List.mem_cons, List.not_mem_nil, or_false] at hw
      rcases hw with hw | hw
      · subst hw; decide
      · subst hw; simp [failWrite]
  | ok p =>
    obtain ⟨dstr, d⟩ := p
    rcases hg : generate_thumbnail video_path
        (ospathJoin THUMBNAIL_DIR ("thumb_" ++ splitextStem stored_filename ++ ".jpg"))
        d env.ffmpegRaw with ⟨call, res⟩
    cases res with
    | error e =>
      constructor
      · intro r hres
        simp [process_video, hgd, hg] at hres
      · intro e' cd mr _ w hw
        simp only [process_video, hgd, hg, List.mem_cons, List.not_mem_nil,
          or_false] at hw
        rcases hw with hw | hw
        · subst hw; decide
        · subst hw; simp [failWrite]
    | ok b =>
      constructor
      · intro r hres
        simp only [process_video, hgd, hg, Outcome.success.injEq] at hres
        subst hres
        simp [process_video, hgd, hg]
      · intro e' cd mr hres
        simp [process_video, hgd, hg] at hres

/-- Witness for C3: on the concrete successful run, the writes are exactly
the processing write followed by the four-field done write. -/
theorem done_transition_single_write_witness :
    (process_video "v" "p" "clip.mp4" envC3).writes =
      [processingWrite,
       doneWrite (TaskResult.mk "v" "done" (durationStr 100) "thumb_clip.jpg").duration
         (TaskResult.mk "v" "done" (durationStr 100) "thumb_clip.jpg").thumbnail_filename
         envC3.now] :=
  (done_transition_single_write "v" "p" "clip.mp4" envC3).1
    ⟨"v", "done", durationStr 100, "thumb_clip.jpg"⟩ rfl

/-- Counterexample for C3 as stated: on a successful run of a 100-second
video the single done-transition write sets exactly the four fields
`status`, `duration` (the display string), `thumbnail_filename` and
`processed_time` — there is no fifth field and no numeric value, so the
numeric `duration_seconds` required by the claim is not persisted. -/
theorem done_transition_counterexample :
    (process_video "v" "p" "clip.mp4" envC3).outcome =
        .success ⟨"v", "done", durationStr 100, "thumb_clip.jpg"⟩ ∧
    (process_video "v" "p" "clip.mp4" envC3).writes =
        [processingWrite, doneWrite (durationStr 100) "thumb_clip.jpg" "t"] ∧
    (doneWrite (durationStr 100) "thumb_clip.jpg" "t").map Prod.fst =
        [FieldName.status, FieldName.duration, FieldName.thumbnail_filename,
         FieldName.processed_time] ∧
    ∀ kv ∈ doneWrite (durationStr 100) "thumb_clip.jpg" "t",
      kv.2.isNumeric = false := by
  refine ⟨rfl, rfl, rfl, ?_⟩
  intro kv hkv
  simp only [doneWrite, List.mem_cons, List.not_mem_nil, or_false] at hkv
  rcases hkv with h | h | h | h <;> subst h <;> rfl

/-! ## C7: what lands in `error_message` -/
/-- C7 (amended): when the duration step fails, the attempt performs a
single failure write of `{status=failed, error_message, processed_at}` —
but the captured text is verbatim only for parse failures (malformed
output / missing or unparseable duration field); a process error is first
wrapped as `"Failed to extract duration: " ++ e`, and a wrapped text never
equals the underlying one. -/
theorem error_message_wrapping (video_id video_path stored_filename : String)
    (env : Env) :
    (env.ffprobeRaw.returncode ≠ 0 →
      (process_video video_id video_path stored_filename env).writes =
        [processingWrite,
         failWrite ("Failed to extract duration: " ++
            calledProcessErrorMsg env.ffprobeRaw.returncode) env.now]) ∧
    (∀ e, env.ffprobeRaw.returncode = 0 →
      env.parseDuration env.ffprobeRaw.stdout = .error e →
      (process_video video_id video_path stored_filename env).writes =
        [processingWrite, failWrite e env.now]) ∧
    (∀ s : String, "Failed to extract duration: " ++ s ≠ s) := by
  refine ⟨?_, ?_, ?_⟩
  · intro h
    have hgd : get_video_duration video_path env.ffprobeRaw env.parseDuration =
        .error ("Failed to extract duration: " ++
          calledProcessErrorMsg env.ffprobeRaw.returncode) := by
      simp [get_video_duration, subprocessRun, h]
    simp [process_video, hgd]
  · intro e h0 hp
    have hgd : get_video_duration video_path env.ffprobeRaw env.parseDuration =
        .error e := by
      simp [get_video_duration, subprocessRun, h0, hp]
    simp [process_video, hgd]
  · intro s hs
    have hl := congrArg String.length hs
    rw [String.length_append] at hl
    have h28 : ("Failed to extract duration: " : String).length = 28 := by decide
    rw [h28] at hl
    omega

/-- Witness for C7: the verbatim parse-failure case at a concrete input
(ffprobe exits 0, the JSON step fails with `"x"`). -/
theorem error_message_wrapping_witness :
    (process_video "v" "p" "c.mp4"
        { recordExists := true, ffprobeRaw := ⟨0, "", ""⟩,
          parseDuration := fun _ => .error "x", ffmpegRaw := ⟨0, "", ""⟩,
          now := "t" }).writes =
      [processingWrite, failWrite "x" "t"] :=
  (error_message_wrapping "v" "p" "c.mp4"
      { recordExists := true, ffprobeRaw := ⟨0, "", ""⟩,
        parseDuration := fun _ => .error "x", ffmpegRaw := ⟨0, "", ""⟩,
        now := "t" }).2.1 "x" rfl rfl

/-- Counterexample for C7 as stated: when ffprobe exits with code 1 the
recorded `error_message` is the wrapped text, which differs from the
underlying error text. -/
theorem error_message_wrapping_counterexample :
    (process_video "v" "p" "c.mp4" envC7).writes =
      [processingWrite,
       failWrite ("Failed to extract duration: " ++ calledProcessErrorMsg 1) "t"] ∧
    "Failed to extract duration: " ++ calledProcessErrorMsg 1 ≠
      calledProcessErrorMsg 1 := by
  exact ⟨rfl, by decide⟩

/-! ## C6: a missing record does not stop the pipeline -/
/-- C6 (amended): the `pending → processing` update is always issued
first, but its result is ignored: the attempt's behaviour is entirely
independent of whether the record exists, so a missing record is not
detected and the inspection and thumbnail steps run regardless. -/
theorem processing_update_unguarded (video_id video_path stored_filename : String)
    (env : Env) (b : Bool) :
    process_video video_id video_path stored_filename { env with recordExists := b } =
      process_video video_id video_path stored_filename env ∧
    (process_video video_id video_path stored_filename env).writes.head? =
      some processingWrite := by
  constructor
  · rfl
  · cases hgd : get_video_duration video_path env.ffprobeRaw env.parseDuration with
    | error e => simp [process_video, hgd]
    | ok p =>
      obtain ⟨dstr, d⟩ := p
      rcases hg : generate_thumbnail video_path
          (ospathJoin THUMBNAIL_DIR ("thumb_" ++ splitextStem stored_filename ++ ".jpg"))
          d env.ffmpegRaw with ⟨call, res⟩
      cases res with
      | error e => simp [process_video, hgd, hg]
      | ok bb => simp [process_video, hgd, hg]

/-- Counterexample for C6 as stated: with the record missing from the
store, the pipeline does not abort — ffprobe is invoked, ffmpeg is
invoked, and the attempt completes successfully. -/
theorem missing_record_proceeds_counterexample :
    envC6.recordExists = false ∧
    (process_video "v" "p" "clip.mp4" envC6).ffprobeCalled = true ∧
    (process_video "v" "p" "clip.mp4" envC6).ffmpegCall.isSome = true ∧
    (process_video "v" "p" "clip.mp4" envC6).outcome =
      .success ⟨"v", "done", durationStr 100, "thumb_clip.jpg"⟩ :=
  ⟨rfl, rfl, rfl, rfl⟩

/-! ## C2: retry exhaustion under an always-failing inspector -/
/-- C2: a job whose duration inspection fails on every delivery is
attempted exactly 3 times in total, with a fixed 60-second backoff between
consecutive attempts (no exponential growth), then permanently acked with
the record left `failed`. (The redelivery loop itself is modelled from the
spec's Job Queue contract; the 60-second countdown and the cap of 3 come
from the task's `self.retry(countdown=60, max_retries=3)`.) -/
theorem retry_exhaustion (video_id video_path stored_filename : String)
    (envs : ℕ → Env) (r0 : Rec)
    (h : ∀ n, ∃ e, get_video_duration video_path (envs n).ffprobeRaw
        (envs n).parseDuration = .error e) :
    (runJob video_id video_path stored_filename envs r0).attempts.length = 3 ∧
    (runJob video_id video_path stored_filename envs r0).delays = [60, 60] ∧
    (runJob video_id video_path stored_filename envs r0).fin = .ackedDead ∧
    ∃ rfin, (runJob video_id video_path stored_filename envs r0).attempts.getLast?
        = some rfin ∧ rfin.status = some "failed" := by
  obtain ⟨e0, h0⟩ := h 0
  obtain ⟨e1, h1⟩ := h 1
  obtain ⟨e2, h2⟩ := h 2
  have hrun : runJob video_id video_path stored_filename envs r0 =
      runQueue video_id video_path stored_filename envs 3 r0 0 3 := rfl
  simp only [hrun, runQueue, process_video, h0, h1, h2, applyAttempt]
  simp [applyWrites_fail]

/-- Witness for C2: the always-failing concrete environment. -/
theorem retry_exhaustion_witness :
    (runJob "v" "p" "c.mp4" (fun _ => envC2) {}).attempts.length = 3 ∧
    (runJob "v" "p" "c.mp4" (fun _ => envC2) {}).delays = [60, 60] ∧
    (runJob "v" "p" "c.mp4" (fun _ => envC2) {}).fin = .ackedDead ∧
    ∃ rfin, (runJob "v" "p" "c.mp4" (fun _ => envC2) {}).attempts.getLast?
        = some rfin ∧ rfin.status = some "failed" :=
  retry_exhaustion "v" "p" "c.mp4" (fun _ => envC2) {}
    (fun _ => ⟨"Failed to extract duration: " ++ calledProcessErrorMsg 1, rfl⟩)

/-! ## C4: the failure write happens even when the job will be retried -/
/-- C4: any failing attempt performs the failure write (a single write of
`{status=failed, error_message, processed_at=now}`) before re-raising for
retry; consequently, in the thumbnail-fails-then-succeeds scenario the
record reads `failed` (with that attempt's `processed_at`) after attempt 1
and `done` (with the new `processed_at`) after attempt 2. (The redelivery
between the two attempts is modelled from the spec's Job Queue contract.) -/
theorem failure_write_visible_between_retries :
    (∀ video_id video_path stored_filename env e cd mr,
      (process_video video_id video_path stored_filename env).outcome =
          .retryRaise e cd mr →
      (process_video video_id video_path stored_filename env).writes =
        [processingWrite, failWrite e env.now]) ∧
    (∀ video_id video_path stored_filename (envs : ℕ → Env) (r0 : Rec)
        (dstr dstr' : String) (d d' : ℚ),
      get_video_duration video_path (envs 0).ffprobeRaw (envs 0).parseDuration
          = .ok (dstr, d) →
      (envs 0).ffmpegRaw.returncode ≠ 0 →
      get_video_duration video_path (envs 1).ffprobeRaw (envs 1).parseDuration
          = .ok (dstr', d') →
      (envs 1).ffmpegRaw.returncode = 0 →
      ∃ r1 r2, (runJob video_id video_path stored_filename envs r0).attempts = [r1, r2] ∧
        r1.status = some "failed" ∧ r1.processed_time = some (envs 0).now ∧
        r2.status = some "done" ∧ r2.processed_time = some (envs 1).now ∧
        (runJob video_id video_path stored_filename envs r0).delays = [60] ∧
        (runJob video_id video_path stored_filename envs r0).fin = .ackedDone) := by
  constructor
  · intro video_id video_path stored_filename env e cd mr hout
    cases hgd : get_video_duration video_path env.ffprobeRaw env.parseDuration with
    | error e' =>
      simp only [process_video, hgd, Outcome.retryRaise.injEq] at hout
      obtain ⟨he, -, -⟩ := hout
      subst he
      simp [process_video, hgd]
    | ok p =>
      obtain ⟨ds, d⟩ := p
      rcases hg : generate_thumbnail video_path
          (ospathJoin THUMBNAIL_DIR ("thumb_" ++ splitextStem stored_filename ++ ".jpg"))
          d env.ffmpegRaw with ⟨call, res⟩
      cases res with
      | error e' =>
        simp only [process_video, hgd, hg, Outcome.retryRaise.injEq] at hout
        obtain ⟨he, -, -⟩ := hout
        subst he
        simp [process_video, hgd, hg]
      | ok b => simp [process_video, hgd, hg] at hout
  · intro video_id video_path stored_filename envs r0 dstr dstr' d d' hgd0 hmp0 hgd1 hmp1
    have hrun : runJob video_id video_path stored_filename envs r0 =
        runQueue video_id video_path stored_filename envs 3 r0 0 3 := rfl
    have hg0 : generate_thumbnail video_path
        (ospathJoin THUMBNAIL_DIR ("thumb_" ++ splitextStem stored_filename ++ ".jpg"))
        d (envs 0).ffmpegRaw =
      ({ input := video_path, ss := d * (1 / 10), vframes := 1,
         vf := "scale=320:240", qv := 2, overwrite := true,
         output := ospathJoin THUMBNAIL_DIR
           ("thumb_" ++ splitextStem stored_filename ++ ".jpg") },
       .error ("Failed to generate thumbnail: " ++
         calledProcessErrorMsg (envs 0).ffmpegRaw.returncode)) := by
      simp [generate_thumbnail, subprocessRun, hmp0]
    have hg1 : generate_thumbnail video_path
        (ospathJoin THUMBNAIL_DIR ("thumb_" ++ splitextStem stored_filename ++ ".jpg"))
        d' (envs 1).ffmpegRaw =
      ({ input := video_path, ss := d' * (1 / 10), vframes := 1,
         vf := "scale=320:240", qv := 2, overwrite := true,
         output := ospathJoin THUMBNAIL_DIR
           ("thumb_" ++ splitextStem stored_filename ++ ".jpg") },
       .ok true) := by
      simp [generate_thumbnail, subprocessRun, hmp1]
    refine ⟨applyAttempt r0 (process_video video_id video_path stored_filename (envs 0)),
      applyAttempt
        (applyAttempt r0 (process_video video_id video_path stored_filename (envs 0)))
        (process_video video_id video_path stored_filename (envs 1)),
      ?_, ?_, ?_, ?_, ?_, ?_, ?_⟩ <;>
      simp only [hrun, runQueue, process_video, hgd0, hgd1, hg0, hg1, applyAttempt] <;>
      simp [applyWrites_fail, applyWrites_done]

/-- Witness for C4: the concrete fail-then-succeed scenario. -/
theorem failure_write_visible_between_retries_witness :
    ∃ r1 r2, (runJob "v" "p" "clip.mp4" envsC4 {}).attempts = [r1, r2] ∧
      r1.status = some "failed" ∧ r1.processed_time = some (envsC4 0).now ∧
      r2.status = some "done" ∧ r2.processed_time = some (envsC4 1).now ∧
      (runJob "v" "p" "clip.mp4" envsC4 {}).delays = [60] ∧
      (runJob "v" "p" "clip.mp4" envsC4 {}).fin = .ackedDone :=
  failure_write_visible_between_retries.2 "v" "p" "clip.mp4" envsC4 {}
    (durationStr 120) (durationStr 120) 120 120 rfl (by decide) rfl (by decide)

/-! ## C9: the status and metadata endpoints -/
/-- C9 (amended): `get_video_status` and `get_video_metadata` are pure
reads — they return the store unchanged; `get_video_status` returns the
stored status; and the metadata view carries a derived thumbnail URL
exactly when `thumbnail_filename` is present *and non-empty* (Python
truthiness), built as `/thumbnails/<thumbnail_filename>`. -/
theorem status_metadata_pure_reads :
    (∀ db video_id, (get_video_status db video_id).1 = db) ∧
    (∀ db video_id, (get_video_metadata db video_id).1 = db) ∧
    (∀ db video_id doc s, objectIdIsValid video_id = true →
      db.lookup video_id = some doc → doc.status = some s →
      (get_video_status db video_id).2 = .ok ⟨video_id, s⟩) ∧
    (∀ db video_id doc fn ut st, objectIdIsValid video_id = true →
      db.lookup video_id = some doc → doc.filename = some fn →
      doc.upload_time = some ut → doc.status = some st →
      ∃ out, (get_video_metadata db video_id).2 = .ok out ∧
        out.id = video_id ∧ out.status = st ∧ out.duration = doc.duration ∧
        ∀ u, out.thumbnail_url = some u ↔
          ∃ t, doc.thumbnail_filename = some t ∧ t ≠ "" ∧ u = "/thumbnails/" ++ t) := by
  refine ⟨?_, ?_, ?_, ?_⟩
  · intro db video_id
    simp only [get_video_status]
    repeat first | rfl | split
  · intro db video_id
    simp only [get_video_metadata]
    repeat first | rfl | split
  · intro db video_id doc s hv hl hs
    simp [get_video_status, hv, hl, hs]
  · intro db video_id doc fn ut st hv hl hfn hut hst
    refine ⟨⟨video_id, fn, ut, st, doc.duration,
      match doc.thumbnail_filename with
      | some t => if t = "" then none else some ("/thumbnails/" ++ t)
      | none => none⟩, ?_, rfl, rfl, rfl, ?_⟩
    · simp [get_video_metadata, hv, hl, hfn, hut, hst]
    · intro u
      cases htf : doc.thumbnail_filename with
      | none => simp [htf]
      | some t =>
        by_cases ht : t = ""
        · simp [htf, ht]
        · simp only [htf, if_neg ht]
          constructor
          · intro hu
            exact ⟨t, rfl, ht, (Option.some.injEq _ _ ▸ hu).symm⟩
          · rintro ⟨t', ht', -, hu⟩
            cases ht'
            exact congrArg some hu.symm

/-- Witness for C9: the stored status of the concrete record is returned. -/
theorem status_metadata_pure_reads_witness :
    (get_video_status dbC9 "0123456789abcdef01234567").2 =
      .ok ⟨"0123456789abcdef01234567", "done"⟩ :=
  status_metadata_pure_reads.2.2.1 dbC9 "0123456789abcdef01234567"
    { filename := some "a.mp4", upload_time := some "T", status := some "done",
      duration := some "00:00:01", thumbnail_filename := some "" }
    "done" (by decide) rfl rfl

/-- Counterexample for C9 as stated: a record whose `thumbnail_filename`
is present but empty gets `thumbnail_url = none` — the URL is not derived
whenever the field is merely present. -/
theorem metadata_thumbnail_counterexample :
    ((dbC9.lookup "0123456789abcdef01234567").bind Rec.thumbnail_filename)
        = some "" ∧
    (get_video_metadata dbC9 "0123456789abcdef01234567").2 =
      .ok ⟨"0123456789abcdef01234567", "a.mp4", "T", "done", some "00:00:01", none⟩ :=
  ⟨rfl, rfl⟩

end Clipo

